import Mathlib

/-!
Shallow embedding of the Spectrometer TN Control firmware
(`src/Spectrometer TN Control/src/main.cpp`) together with proofs about
the behaviour its specification describes.

Modelling conventions:
* The Arduino runtime (`Serial`, `millis`, `digitalRead`/`digitalWrite`,
  `analogRead`, `delay`) is the environment.  Each modelled entry point
  receives the values the runtime would deliver: the pending serial
  bytes, the current `millis()` value, the TTL pin levels and the analog
  samples.  The stream-parsing helpers of the Arduino library
  (`readStringUntil`, `parseInt`, `peek`) are modelled by environment
  fields carrying their results.
* `digitalWrite` on the valve pins is the valve bank state (`Valves`);
  every `Serial.print`/`println` is collected in `output`, one entry per
  emitted line.  Status LEDs carry no logic and are not modelled.
* On the AVR target `unsigned long` and `long` are 32 bits and `int` is
  16 bits.  Casts to `long` are modelled by `toLong`/`usubLong`, the
  narrowing to `int` by `toInt16`, and `int` to `unsigned long` by
  `intToULong`.
* The `double` arithmetic of `convertToBar` is modelled by exact
  rational arithmetic followed by the C++ double-to-int truncation
  toward zero.  For 10-bit ADC inputs the double rounding error (well
  below 1e-10 bar) can never move the truncated integer result, because
  no integer raw count maps to an integer number of bar.
-/

namespace SpectrometerTN

/-- 32-bit wrap of an unsigned value, as on the AVR target. -/
def wrap32 (n : Nat) : Nat := n % 4294967296

/-- Reinterpret an `unsigned long` value as a signed 32-bit `long`. -/
def toLong (n : Nat) : Int :=
  if wrap32 n < 2147483648 then (wrap32 n : Int) else (wrap32 n : Int) - 4294967296

/-- `(long)(a - b)` for `unsigned long` operands `a` and `b`. -/
def usubLong (a b : Nat) : Int := toLong (a + 4294967296 - wrap32 b)

/-- Narrowing of a `long` value to a 16-bit `int` (gcc wraps). -/
def toInt16 (i : Int) : Int :=
  let m := i % 65536
  if m < 32768 then m else m - 65536

/-- `static_cast<unsigned long>` of an `int`/`long` value. -/
def intToULong (i : Int) : Nat := (i % 4294967296).toNat

/-- Valve indices, from `main.cpp` line 10. -/
def SWITCH : Nat := 0

def IN : Nat := 1

def OUT : Nat := 2

def VENT : Nat := 3

def SHORT : Nat := 4

/-- Default time between pressure readings (ms). -/
def DEFPollTime : Nat := 500

/-- Default time between heartbeats (ms). -/
def DEFHeartbeatTime : Nat := 5000

/-- Maximum number of steps in a sequence. -/
def maxLength : Nat := 9

/-- A sequence step: type character and length in ms (`unsigned long`). -/
structure Step where
  type : Char
  length : Nat
deriving DecidableEq, Repr

/-- The commanded state of the 8 valve outputs (indices 0..7). -/
structure Valves where
  v0 : Bool
  v1 : Bool
  v2 : Bool
  v3 : Bool
  v4 : Bool
  v5 : Bool
  v6 : Bool
  v7 : Bool
deriving DecidableEq, Repr

def emptyValves : Valves := ⟨false, false, false, false, false, false, false, false⟩

/-- `digitalWrite(VALVES[valve], state)`; out-of-range indices never occur. -/
def setValveState (vs : Valves) (valve : Nat) (state : Bool) : Valves :=
  match valve with
  | 0 => { vs with v0 := state }
  | 1 => { vs with v1 := state }
  | 2 => { vs with v2 := state }
  | 3 => { vs with v3 := state }
  | 4 => { vs with v4 := state }
  | 5 => { vs with v5 := state }
  | 6 => { vs with v6 := state }
  | 7 => { vs with v7 := state }
  | _ => vs

/-- `digitalRead(VALVES[valve])` reads back the commanded output. -/
def getValve (vs : Valves) (valve : Nat) : Bool :=
  match valve with
  | 0 => vs.v0
  | 1 => vs.v1
  | 2 => vs.v2
  | 3 => vs.v3
  | 4 => vs.v4
  | 5 => vs.v5
  | 6 => vs.v6
  | 7 => vs.v7
  | _ => false

/-- The mutable file-scope state of `main.cpp` plus the serial output. -/
structure MachineState where
  TNcontrol : Bool
  pressureLog : Bool
  TTLControl : Bool
  decodeFlag : Bool
  execFlag : Bool
  simpleTTL : Bool
  newStepFlag : Bool
  pressureInputs : List Int
  currentStepIndex : Nat
  tPoll : Nat
  tStepStart : Nat
  heartBeat : Nat
  sequence : List Char
  sequenceSteps : List Step
  currentStep : Step
  nextStep : Step
  stepRunning : Bool
  started : Bool
  valves : Valves
  output : List String
deriving DecidableEq, Repr

/-- One `Serial.println` line. -/
def emit (st : MachineState) (line : String) : MachineState :=
  { st with output := st.output ++ [line] }

/-- `String(state)` for a 0/1 pin state. -/
def bitStr (state : Bool) : String := if state then "1" else "0"

/-- `setValve` from `main.cpp` lines 232-237: sets the valve (and its
mirror LED, not modelled) and logs the transition. -/
def setValve (st : MachineState) (valve : Nat) (state : Bool) : MachineState :=
  { st with valves := setValveState st.valves valve state,
            output := st.output ++
              ["LOG: Valve " ++ toString (valve + 1) ++ " set to " ++ bitStr state] }

/-- The exact value of `(pressure-203.53)/0.8248/100` in `double`
arithmetic, modelled over the rationals. -/
def convertToBarRat (pressure : Int) : ℚ := ((pressure : ℚ) - 203.53) / 0.8248 / 100

/-- C++ `double` to `int` conversion truncates toward zero. -/
def ratTruncToInt (q : ℚ) : Int := if q < 0 then ⌈q⌉ else ⌊q⌋

/-- `convertToBar` from `main.cpp` lines 541-543.  The function is
declared to return `int`, so the fractional bar value
`(pressure - 203.53) / 0.8248 / 100 = (100*pressure - 20353) / 8248`
is truncated toward zero; `convertToBar_eq_ratTrunc` below proves this
kernel-computable form equal to the truncated rational formula. -/
def convertToBar (pressure : Int) : Int := Int.tdiv (100 * pressure - 20353) 8248

/-- The guard `convertToBar(analogRead(Pressure3)) > 0.1` used by
`depressurise`: the returned `int`, promoted to `double`, is compared
against 0.1, which for an integer left operand amounts to `1 ≤ i`;
`pressHigh_iff` below proves this form equal to the comparison against
the rational 0.1. -/
def pressHigh (raw : Int) : Bool := decide (1 ≤ convertToBar raw)

/-- `closeValves` from `main.cpp` lines 450-456, the
"safety function run at the end of a sequence": closes all 8 outputs. -/
def closeValves (st : MachineState) : MachineState :=
  setValve (setValve (setValve (setValve (setValve (setValve (setValve
    (setValve st 0 false) 1 false) 2 false) 3 false) 4 false) 5 false) 6 false) 7 false

/-- `reset` from `main.cpp` lines 486-501. -/
def reset (st : MachineState) (now : Nat) : MachineState :=
  let st1 := { st with
    output := st.output ++ ["System Reset, please reconnect"],
    sequenceSteps := List.replicate maxLength ⟨Char.ofNat 0, 0⟩,
    currentStepIndex := 0,
    execFlag := false,
    decodeFlag := false,
    simpleTTL := false,
    TNcontrol := false }
  let st2 := closeValves st1
  { st2 with tPoll := now, started := false }

/-- `isValidType` from `main.cpp` lines 512-519. -/
def validTypes : List Char := ['b', 'd', 'n', 'e']

def isValidType (type : Char) : Bool := validTypes.contains type

/-- `processStep` from `main.cpp` lines 576-606. -/
def processStep (st : MachineState) (step : Step) : MachineState :=
  if step.type = 'b' then
    setValve (setValve (setValve (setValve (setValve st SWITCH false)
      IN true) OUT true) VENT true) SHORT false
  else if step.type = 'd' then
    setValve (setValve (setValve (setValve st IN false) OUT false) VENT false) SHORT false
  else if step.type = 'n' then
    emit st "LOG: Alt bubble step not implemented"
  else if step.type = 'e' then
    emit st "LOG: End of sequence reached"
  else
    emit st "LOG: Unknown step type"

/-- `handleTTL` from `main.cpp` lines 458-484, reading TTL pins T1..T5. -/
def handleTTL (st : MachineState) (t1 t2 t3 t4 t5 : Bool) : MachineState :=
  if st.simpleTTL then
    setValve (setValve (setValve (setValve (setValve st IN t1) OUT t2) SHORT t3)
      VENT t4) SWITCH t5
  else
    let combinedState : Nat :=
      (cond t4 1 0) * 8 + (cond t3 1 0) * 4 + (cond t2 1 0) * 2 + (cond t1 1 0)
    if combinedState = 0 then
      setValve (setValve (setValve (setValve (setValve st IN false) OUT false)
        SWITCH false) VENT false) SHORT false
    else
      emit st "LOG: Invalid TTL input"

/-- `String(float)` of an integral stored pressure value. -/
def floatStr (i : Int) : String := toString i ++ ".00"

def valveBits (vs : Valves) : List Bool :=
  [vs.v0, vs.v1, vs.v2, vs.v3, vs.v4, vs.v5, vs.v6, vs.v7]

/-- The pressure report line built by `readPressure`. -/
def pressureLine (ps : List Int) (vs : Valves) : String :=
  "P " ++ String.join (ps.map (fun p => floatStr p ++ " "))
    ++ String.join ((valveBits vs).map (fun b => bitStr b ++ " ")) ++ "C"

/-- `readPressure` from `main.cpp` lines 424-448, with the four analog
samples supplied by the environment. -/
def readPressure (st : MachineState) (a1 a2 a3 a4 : Int) : MachineState :=
  let ps := [convertToBar a1, convertToBar a2, convertToBar a3, convertToBar a4]
  let st1 := { st with pressureInputs := ps }
  if st1.pressureLog then emit st1 (pressureLine ps st1.valves) else st1

/-- The results the Arduino stream helpers deliver to `loadstep`:
whether a byte is available, the byte `Serial.read` returns, the value
`Serial.parseInt` returns (a `long`), and whether `Serial.peek` is the
character `0`. -/
structure LoadEnv where
  avail : Bool
  typeChar : Char
  parsed : Int
  peekIsZero : Bool

/-- `loadstep` from `main.cpp` lines 545-574.  (With a byte available,
`Serial.read` can never return -1, so that guard is not reachable.)
Returns the C++ return value paired with the updated state. -/
def loadstep (st : MachineState) (env : LoadEnv) : Bool × MachineState :=
  if env.avail then
    if isValidType env.typeChar = false then
      (false, emit st "LOG: Invalid step type")
    else
      let st1 := { st with nextStep := { st.nextStep with type := env.typeChar } }
      let len : Int := toInt16 env.parsed
      if len = 0 ∧ env.peekIsZero = false then
        (false, emit st1 "Failed to parse integer from Serial")
      else
        let st2 := { st1 with nextStep := { st1.nextStep with length := intToULong len } }
        (true, emit st2 ("LOG: Loaded step type " ++ String.mk [st2.nextStep.type]
          ++ " with length " ++ toString st2.nextStep.length))
  else
    (false, emit st "LOG: Expected input, but none received")

/-- `atol` on a digit string, as used by `String::toInt`. -/
def digitsToInt (ds : List Char) : Int :=
  ds.foldl (fun acc c => acc * 10 + ((c.toNat : Int) - 48)) 0

/-- The `while` loop of `decodeSequence` (`main.cpp` lines 386-412):
each iteration reads a type character and its digit run; an invalid
type character prints the failure lines, clears `decodeFlag` and
breaks; overfull sequences print a diagnostic and break.  Every
iteration consumes at least the type character, so running the loop
with `fuel` set to the length of the remaining input (as
`decodeSequence` below does) can never hit the fuel-exhausted case. -/
def decodeLoop : Nat → MachineState → Nat → List Char → MachineState
  | _, st, _, [] => st
  | 0, st, _, _ => st
  | fuel + 1, st, stepIndex, stepType :: rest =>
    if isValidType stepType then
      let stepLengthStr := rest.takeWhile Char.isDigit
      let rest2 := rest.dropWhile Char.isDigit
      if maxLength ≤ stepIndex then
        emit st "LOG: Sequence too long, only first 9 steps will be executed"
      else
        let stepLength : Int := toInt16 (digitsToInt stepLengthStr)
        decodeLoop fuel
          { st with sequenceSteps :=
              st.sequenceSteps.set stepIndex ⟨stepType, intToULong stepLength⟩ }
          (stepIndex + 1) rest2
    else
      { emit (emit st "LOG: Invalid step type in sequence") "SEQ: False" with
          decodeFlag := false }

/-- `decodeSequence` from `main.cpp` lines 362-422, with the line read
by `Serial.readStringUntil` supplied by the environment.  After the
`while` loop the source unconditionally prints `SEQ: True` and sets
`decodeFlag`, even when the loop was left through a failure `break`. -/
def decodeSequence (st : MachineState) (avail : Bool) (line : List Char) : MachineState :=
  if st.execFlag then
    { emit (emit st "SEQ: False")
        "LOG: Sequence already running, please wait for current sequence to end before loading a new one" with
        decodeFlag := false }
  else if avail then
    let st1 := { st with sequence := line, decodeFlag := false }
    let st2 := decodeLoop line.length st1 0 line
    { emit st2 "SEQ: True" with decodeFlag := true }
  else
    { emit (emit st "SEQ: False") "LOG: Expected sequence input, but none received" with
        decodeFlag := false }

/-- The `while` loop of `depressurise` (`main.cpp` lines 530-532):
`readings k` is the value of the k-th `analogRead(Pressure3)` and
`fuel` bounds how many loop-condition checks we unfold.  Returns the
index of the first low reading, or `none` if the loop is still running
after `fuel` checks. -/
def depressLoop (readings : Nat → Int) (k : Nat) : Nat → Option Nat
  | 0 => none
  | fuel + 1 =>
    if pressHigh (readings k) then depressLoop readings (k + 1) fuel else some k

/-- `depressurise` from `main.cpp` lines 521-539.  `readings 0` is the
initial guard sample; `readings (k+1)` the k-th loop-condition sample.
`none` means the routine is still inside its polling loop after `fuel`
condition checks. -/
def depressurise (st : MachineState) (readings : Nat → Int) (fuel : Nat) :
    Option MachineState :=
  let st0 := emit st "LOG: Depressurising system"
  if pressHigh (readings 0) then
    let st1 := setValve (setValve (setValve (setValve (setValve st0 SWITCH false)
      IN false) OUT true) VENT false) SHORT true
    match depressLoop readings 1 fuel with
    | none => none
    | some _ => some (setValve (setValve st1 SHORT false) OUT false)
  else
    some (emit st0 "LOG: System already depressurised")

/-- `handleSerial` from `main.cpp` lines 239-360, dispatching on the
byte read from the serial port.  `none` is only produced by the `d`
command when `depressurise` is still looping after `fuel` polls. -/
def handleSerial (st : MachineState) (input : Char) (now : Nat) (load : LoadEnv)
    (readings : Nat → Int) (fuel : Nat) : Option MachineState :=
  if input.isAlpha then
    if input = 'y' then
      some { emit st "HEARTBEAT_ACK" with heartBeat := now }
    else if input = 'i' then
      some st
    else if input = 'R' then
      if st.TNcontrol then
        if st.decodeFlag then
          let st1 := { st with
            execFlag := true, tStepStart := now, currentStep := st.nextStep }
          let st2 := processStep st1 st1.currentStep
          some (emit st2 "NEWSEQ")
        else
          some (emit st "LOG: No steps loaded yet")
      else
        some (emit st "LOG: Auto control not enabled")
    else if input = 'M' then
      if st.TNcontrol = false then
        some { emit st "LOG: Switching to Auto control" with TNcontrol := true }
      else
        some (emit st "LOG: Already in Auto control mode")
    else if input = 'm' then
      if st.TNcontrol then
        some { emit st "LOG: Switching to Manual control" with TNcontrol := false }
      else
        some (emit st "LOG: Already in Manual control mode")
    else if input = 'K' then
      some st
    else if input = 'k' then
      some st
    else if input = 'T' then
      some { st with simpleTTL := true }
    else if input = 't' then
      some { st with simpleTTL := false }
    else if input = 's' then
      some (reset st now)
    else if input = 'd' then
      depressurise st readings fuel
    else if input = 'l' then
      let r := loadstep st load
      if r.1 then
        if r.2.newStepFlag then
          some { r.2 with newStepFlag := false, decodeFlag := true }
        else
          some (emit r.2 "WAITSEQ")
      else
        some { emit r.2 "ERROR: Failed to load step" with decodeFlag := false }
    else if input = 'Z' then some (setValve st SHORT true)
    else if input = 'z' then some (setValve st SHORT false)
    else if input = 'C' then some (setValve st IN true)
    else if input = 'c' then some (setValve st IN false)
    else if input = 'V' then some (setValve st OUT true)
    else if input = 'v' then some (setValve st OUT false)
    else if input = 'X' then some (setValve st VENT true)
    else if input = 'x' then some (setValve st VENT false)
    else if input = 'H' then some (setValve st SWITCH true)
    else if input = 'h' then some (setValve st SWITCH false)
    else some (emit st "LOG: Invalid input")
  else
    some (emit st "LOG: Invalid input, not a letter")

/-- The sequence-engine block of `loop` (`main.cpp` lines 138-153). -/
def execBlock (st : MachineState) (tNow : Nat) : MachineState :=
  if st.currentStep.type = 'e' then
    { emit st "ENDSEQ" with
        execFlag := false, currentStep := ⟨'e', 1⟩, nextStep := ⟨'e', 1⟩ }
  else
    if toLong st.currentStep.length ≤ toLong tNow - toLong st.tStepStart then
      let st1 := { st with currentStep := st.nextStep }
      let st2 := processStep st1 st1.currentStep
      { emit st2 "NEWSEQ" with tStepStart := tNow, newStepFlag := true }
    else
      st

/-- The `while (started == 0)` gate of `loop` (`main.cpp` lines
115-127): consumes pending bytes until `S` arrives.  Returns the
updated state, the bytes left after `S`, and whether `S` was seen. -/
def waitStart (st : MachineState) (now : Nat) : List Char → MachineState × List Char × Bool
  | [] => (st, [], false)
  | input :: rest =>
    let st1 := emit st ("LOG: Received input: " ++ String.mk [input])
    if input = 'S' then
      ({ emit st1 "LOG: System started" with started := true, heartBeat := now },
        rest, true)
    else
      waitStart st1 now rest

/-- The per-tick environment: `millis()`, the pending serial bytes, the
TTL pin levels, the four analog samples, and the stream-helper results
used by the `l` and `d` commands. -/
structure TickEnv where
  now : Nat
  serial : List Char
  t1 : Bool
  t2 : Bool
  t3 : Bool
  t4 : Bool
  t5 : Bool
  a1 : Int
  a2 : Int
  a3 : Int
  a4 : Int
  load : LoadEnv
  depressReads : Nat → Int
  depressFuel : Nat

/-- Stage of `loop`: `if(execFlag == 1){...}` (`main.cpp` line 138). -/
def execStage (st : MachineState) (tNow : Nat) : MachineState :=
  if st.execFlag then execBlock st tNow else st

/-- Stage of `loop`: `if(TTLControl == 1){handleTTL();}` (line 157). -/
def ttlStage (st : MachineState) (env : TickEnv) : MachineState :=
  if st.TTLControl then handleTTL st env.t1 env.t2 env.t3 env.t4 env.t5 else st

/-- Stage of `loop`: the poll-timer guard around `readPressure`
(line 159). -/
def pollStage (st : MachineState) (env : TickEnv) : MachineState :=
  if toLong DEFPollTime ≤ usubLong env.now st.tPoll then
    { readPressure st env.a1 env.a2 env.a3 env.a4 with tPoll := env.now }
  else st

/-- Stage of `loop`: the heartbeat supervisor (line 163). -/
def heartStage (st : MachineState) (tNow : Nat) : MachineState :=
  if toLong DEFHeartbeatTime ≤ usubLong tNow st.heartBeat then reset st tNow else st

/-- The main body of `loop` (`main.cpp` lines 130-164), after the
started gate: serial dispatch, sequence engine, TTL handling, pressure
polling and the heartbeat supervisor, in source order.  (`updateStatus`
only drives LEDs and is not modelled.) -/
def tickMain (st : MachineState) (env : TickEnv) (serialQ : List Char) :
    Option MachineState :=
  let st1? := match serialQ with
    | [] => some st
    | input :: _ =>
      handleSerial st input env.now env.load env.depressReads env.depressFuel
  match st1? with
  | none => none
  | some st1 =>
    some (heartStage (pollStage (ttlStage (execStage st1 env.now) env) env) env.now)

/-- One invocation of `loop` (`main.cpp` lines 114-165). -/
def tick (st : MachineState) (env : TickEnv) : Option MachineState :=
  if st.started then
    tickMain st env env.serial
  else
    let w := waitStart st env.now env.serial
    if w.2.2 then tickMain w.1 env w.2.1 else some w.1

/-- `tick` with the (unreachable for the inputs we use) `none` case
defaulted, for stating concrete evaluations. -/
def tickD (st : MachineState) (env : TickEnv) : MachineState := (tick st env).getD st

/-- The state right after `setup` (`main.cpp` lines 104-112) ran at
time `t0`: all globals at their declared initial values, `initOutput`
has closed every valve and printed the initial heartbeat line. -/
def initStateAt (t0 : Nat) : MachineState :=
  let st0 : MachineState := {
    TNcontrol := false, pressureLog := true, TTLControl := false,
    decodeFlag := false, execFlag := false, simpleTTL := false,
    newStepFlag := false, pressureInputs := [0, 0, 0, 0],
    currentStepIndex := 0, tPoll := t0, tStepStart := 0, heartBeat := t0,
    sequence := [], sequenceSteps := List.replicate maxLength ⟨Char.ofNat 0, 0⟩,
    currentStep := ⟨'e', 1⟩, nextStep := ⟨'e', 1⟩, stepRunning := false,
    started := false, valves := emptyValves, output := [] }
  let st1 := closeValves st0
  emit st1 "HEARTBEAT_ACK"

/-- How often `line` occurs in the collected output. -/
def countLine (out : List String) (line : String) : Nat :=
  (out.filter (fun x => x == line)).length

/-- An environment with nothing pending and all inputs low. -/
def noLoad : LoadEnv := ⟨false, 'e', 0, false⟩

def baseEnv : TickEnv :=
  { now := 0, serial := [], t1 := false, t2 := false, t3 := false, t4 := false,
    t5 := false, a1 := 0, a2 := 0, a3 := 0, a4 := 0, load := noLoad,
    depressReads := fun _ => 0, depressFuel := 0 }

/-- The `double` expression of `convertToBar` equals the single integer
fraction used by the computable definition. -/
theorem convertToBarRat_eq (p : Int) :
    convertToBarRat p = ((100 * p - 20353 : ℤ) : ℚ) / ((8248 : ℕ) : ℚ) := by
  unfold convertToBarRat
  push_cast
  norm_num
  ring_nf

/-- The computable `convertToBar` is exactly the source formula
truncated toward zero by the C++ `double` to `int` conversion. -/
theorem convertToBar_eq_ratTrunc (p : Int) :
    convertToBar p = ratTruncToInt (convertToBarRat p) := by
  rw [convertToBarRat_eq]
  unfold convertToBar ratTruncToInt
  rcases le_or_lt 0 (100 * p - 20353 : ℤ) with h | h
  · rw [if_neg (not_lt.mpr (div_nonneg (by exact_mod_cast h) (by norm_num))),
      Rat.floor_intCast_div_natCast, Int.tdiv_eq_ediv h (by norm_num)]
    norm_num
  · have hq : ((100 * p - 20353 : ℤ) : ℚ) / ((8248 : ℕ) : ℚ) < 0 := by
      apply div_neg_of_neg_of_pos
      · exact_mod_cast h
      · norm_num
    rw [if_pos hq]
    have hceil : ⌈((100 * p - 20353 : ℤ) : ℚ) / ((8248 : ℕ) : ℚ)⌉
        = -⌊(((-(100 * p - 20353)) : ℤ) : ℚ) / ((8248 : ℕ) : ℚ)⌋ := by
      rw [← Int.ceil_neg]
      congr 1
      push_cast
      ring
    rw [hceil, Rat.floor_intCast_div_natCast]
    rw [show (100 * p - 20353 : ℤ) = -(-(100 * p - 20353)) by ring]
    rw [Int.neg_tdiv]
    congr 1
    rw [Int.tdiv_eq_ediv (by omega) (by norm_num)]
    norm_num

/-- Helper: a strictly positive breach margin never arises between a
timestamp and itself. -/
theorem usubLong_self (a : Nat) : usubLong a a = 0 := by
  unfold usubLong toLong wrap32
  have h : (a + 4294967296 - a % 4294967296) % 4294967296 = 0 := by omega
  rw [h]
  decide

/-- The computable guard `pressHigh` is exactly the source comparison
of the `int` conversion result against the `double` literal 0.1. -/
theorem pressHigh_iff (raw : Int) :
    pressHigh raw = true ↔ (0.1 : ℚ) < (convertToBar raw : ℚ) := by
  unfold pressHigh
  rw [decide_eq_true_iff]
  constructor
  · intro h
    calc (0.1 : ℚ) < 1 := by norm_num
    _ ≤ (convertToBar raw : ℚ) := by exact_mod_cast h
  · intro h
    by_contra hc
    push_neg at hc
    have : (convertToBar raw : ℚ) ≤ 0 := by
      exact_mod_cast Int.lt_add_one_iff.mp (by omega)
    linarith

/-- Frame fact: `setValve` only touches valves and output. -/
theorem setValve_heartBeat (st : MachineState) (v : Nat) (b : Bool) :
    (setValve st v b).heartBeat = st.heartBeat := rfl

theorem setValve_started (st : MachineState) (v : Nat) (b : Bool) :
    (setValve st v b).started = st.started := rfl

/-- Frame fact: `emit` only touches the output. -/
theorem emit_heartBeat (st : MachineState) (l : String) :
    (emit st l).heartBeat = st.heartBeat := rfl

theorem emit_started (st : MachineState) (l : String) :
    (emit st l).started = st.started := rfl

/-- Frame fact: `processStep` only touches valves and output. -/
theorem processStep_heartBeat (st : MachineState) (step : Step) :
    (processStep st step).heartBeat = st.heartBeat := by
  simp only [processStep]
  repeat' split
  all_goals simp [setValve_heartBeat, emit_heartBeat]

theorem processStep_started (st : MachineState) (step : Step) :
    (processStep st step).started = st.started := by
  simp only [processStep]
  repeat' split
  all_goals simp [setValve_started, emit_started]

/-- Frame fact: the sequence-engine block never touches the liveness
clock or the started flag. -/
theorem execBlock_heartBeat (st : MachineState) (tNow : Nat) :
    (execBlock st tNow).heartBeat = st.heartBeat := by
  simp only [execBlock]
  repeat' split
  all_goals simp [emit_heartBeat, processStep_heartBeat]

theorem execBlock_started (st : MachineState) (tNow : Nat) :
    (execBlock st tNow).started = st.started := by
  simp only [execBlock]
  repeat' split
  all_goals simp [emit_started, processStep_started]

/-- Frame fact: the TTL handler never touches the liveness clock or
the started flag. -/
theorem handleTTL_heartBeat (st : MachineState) (t1 t2 t3 t4 t5 : Bool) :
    (handleTTL st t1 t2 t3 t4 t5).heartBeat = st.heartBeat := by
  simp only [handleTTL]
  repeat' split
  all_goals simp [setValve_heartBeat, emit_heartBeat]

theorem handleTTL_started (st : MachineState) (t1 t2 t3 t4 t5 : Bool) :
    (handleTTL st t1 t2 t3 t4 t5).started = st.started := by
  simp only [handleTTL]
  repeat' split
  all_goals simp [setValve_started, emit_started]

/-- Frame fact: the pressure poll never touches the liveness clock or
the started flag. -/
theorem readPressure_heartBeat (st : MachineState) (a1 a2 a3 a4 : Int) :
    (readPressure st a1 a2 a3 a4).heartBeat = st.heartBeat := by
  simp only [readPressure]
  repeat' split
  all_goals simp [emit_heartBeat]

theorem readPressure_started (st : MachineState) (a1 a2 a3 a4 : Int) :
    (readPressure st a1 a2 a3 a4).started = st.started := by
  simp only [readPressure]
  repeat' split
  all_goals simp [emit_started]

/-- C9: processing a step applies exactly the specified valve pattern:
a bubble step opens IN, OUT and VENT and closes SWITCH and SHORT; a
delay step closes IN, OUT, VENT and SHORT; an alt-bubble step only
logs that it is unimplemented and changes no valve; an end step
changes no valve. -/
theorem processStep_patterns (st : MachineState) (n : Nat) :
    getValve (processStep st ⟨'b', n⟩).valves SWITCH = false
  ∧ getValve (processStep st ⟨'b', n⟩).valves IN = true
  ∧ getValve (processStep st ⟨'b', n⟩).valves OUT = true
  ∧ getValve (processStep st ⟨'b', n⟩).valves VENT = true
  ∧ getValve (processStep st ⟨'b', n⟩).valves SHORT = false
  ∧ getValve (processStep st ⟨'d', n⟩).valves IN = false
  ∧ getValve (processStep st ⟨'d', n⟩).valves OUT = false
  ∧ getValve (processStep st ⟨'d', n⟩).valves VENT = false
  ∧ getValve (processStep st ⟨'d', n⟩).valves SHORT = false
  ∧ getValve (processStep st ⟨'d', n⟩).valves SWITCH = getValve st.valves SWITCH
  ∧ (processStep st ⟨'n', n⟩).valves = st.valves
  ∧ (processStep st ⟨'n', n⟩).output
      = st.output ++ ["LOG: Alt bubble step not implemented"]
  ∧ (processStep st ⟨'e', n⟩).valves = st.valves := by
  refine ⟨?_, ?_, ?_, ?_, ?_, ?_, ?_, ?_, ?_, ?_, ?_, ?_, ?_⟩
  all_goals
    simp [processStep, setValve, emit, setValveState, getValve,
      SWITCH, IN, OUT, VENT, SHORT]

/-- C7 (code bug): `convertToBar` does not return the value of the
conversion formula: the declared `int` return type truncates it.  At
raw count 500 the code returns 3, while the formula gives
29647/8248, about 3.594 bar; around raw 203.53 the result is 0, but so
is the whole interval of raw counts 122..286, so the (monotone)
conversion cannot resolve anything below 1 bar, defeating the 0.1 bar
threshold comparison in `depressurise`. -/
theorem convertToBar_truncation_bug :
    convertToBar 500 = 3
  ∧ convertToBarRat 500 = 29647 / 8248
  ∧ (convertToBar 500 : ℚ) ≠ convertToBarRat 500
  ∧ convertToBar 204 = 0
  ∧ convertToBar 122 = 0
  ∧ convertToBar 286 = 0
  ∧ convertToBar 287 = 1
  ∧ convertToBar 121 = -1 := by
  have h1 : convertToBar 500 = 3 := by decide
  have h2 : convertToBarRat 500 = 29647 / 8248 := by
    rw [convertToBarRat_eq]
    norm_num
  refine ⟨h1, h2, ?_, by decide, by decide, by decide, by decide, by decide⟩
  rw [h1, h2]
  norm_num

/-- A started machine fresh out of `setup` at time 0. -/
def c8State : MachineState := { initStateAt 0 with started := true }

/-- The state after the tick that processes the serial byte `T`. -/
def c8After : MachineState := tickD c8State { baseEnv with serial := ['T'] }

/-- `c8After` with the SHORT valve forced open, to observe whether TTL
inputs drive the valves afterwards. -/
def c8Open : MachineState := { c8After with valves := { c8After.valves with v4 := true } }

/-- C8 (code bug): the `T` command sets only the (unused) `simpleTTL`
flag; `TTLControl` stays false — no statement in the program ever sets
it — so a following tick with every TTL input low (combined state 0,
which the claim says closes all 5 valves) performs no TTL handling at
all and the open SHORT valve stays open. -/
theorem ttl_enable_broken :
    c8After.TTLControl = false
  ∧ c8After.simpleTTL = true
  ∧ (tickD c8Open baseEnv).valves = c8Open.valves
  ∧ getValve (tickD c8Open baseEnv).valves SHORT = true := by decide

/-- A machine mid-run whose current step is the end marker and whose
SHORT valve is open. -/
def c2State : MachineState :=
  { initStateAt 1000 with
    started := true, TNcontrol := true, execFlag := true,
    currentStep := ⟨'e', 5⟩, nextStep := ⟨'b', 100⟩,
    valves := { emptyValves with v4 := true } }

def c2Env : TickEnv := { baseEnv with now := 1000 }

/-- C2 (code bug): when the engine reaches the end step it clears
`execFlag`, resets the step pair and emits exactly one ENDSEQ, but it
does not force the valves closed: the open SHORT valve stays open,
although `closeValves` is documented in the source as the safety
function run at the end of a sequence. -/
theorem endStep_leaves_valves_open :
    (tickD c2State c2Env).execFlag = false
  ∧ (tickD c2State c2Env).currentStep = ⟨'e', 1⟩
  ∧ (tickD c2State c2Env).nextStep = ⟨'e', 1⟩
  ∧ countLine (tickD c2State c2Env).output "ENDSEQ" = 1
  ∧ countLine c2State.output "ENDSEQ" = 0
  ∧ (tickD c2State c2Env).valves = c2State.valves
  ∧ getValve (tickD c2State c2Env).valves SHORT = true := by decide

/-- A machine with a previously loaded sequence whose first step is a
delay of 999 ms. -/
def c5State : MachineState :=
  { initStateAt 0 with sequenceSteps :=
      (List.replicate maxLength (⟨Char.ofNat 0, 0⟩ : Step)).set 0 ⟨'d', 999⟩ }

/-- The state after decoding the line `b100q50`. -/
def c5After : MachineState := decodeSequence c5State true ['b', '1', '0', '0', 'q', '5', '0']

/-- C5 (code bug): decoding `b100q50` does hit the invalid type
character `q` and prints the negative result, but the unguarded
epilogue after the loop then also prints `SEQ: True` and sets
`decodeFlag`, and step 0 of the previously loaded sequence has already
been overwritten by the time the failure is detected. -/
theorem decode_invalid_type_bug :
    countLine c5After.output "SEQ: False" = 1
  ∧ countLine c5After.output "SEQ: True" = 1
  ∧ c5After.decodeFlag = true
  ∧ c5After.sequenceSteps.getD 0 ⟨'e', 0⟩ = ⟨'b', 100⟩
  ∧ c5State.sequenceSteps.getD 0 ⟨'e', 0⟩ = ⟨'d', 999⟩
  ∧ countLine c5After.output "LOG: Invalid step type in sequence" = 1 := by decide

/-- C6 counterexample: with a pending `b` type byte whose duration
fails to parse, `loadstep` returns failure but has already overwritten
the type field of the next step: the step is partially mutated,
contradicting the claim. -/
theorem loadstep_mutation_counterexample :
    (loadstep (initStateAt 0) ⟨true, 'b', 0, false⟩).1 = false
  ∧ (initStateAt 0).nextStep.type = 'e'
  ∧ (loadstep (initStateAt 0) ⟨true, 'b', 0, false⟩).2.nextStep.type = 'b' := by decide

/-- C6 amended: an invalid type character aborts the load with the
next step completely unchanged, but a duration-parse failure aborts
only after the type field has been overwritten; the length field
itself is never mutated on a failing load. -/
theorem loadstep_failure_mutation (st : MachineState) (env : LoadEnv)
    (h : env.avail = true) :
    (isValidType env.typeChar = false →
      loadstep st env = (false, emit st "LOG: Invalid step type"))
  ∧ (isValidType env.typeChar = true → toInt16 env.parsed = 0 →
      env.peekIsZero = false →
      (loadstep st env).1 = false
      ∧ (loadstep st env).2.nextStep.type = env.typeChar
      ∧ (loadstep st env).2.nextStep.length = st.nextStep.length) := by
  constructor
  · intro hv
    simp [loadstep, h, hv]
  · intro hv hp hz
    simp [loadstep, h, hv, hp, hz, emit]

/-- Witness for `loadstep_failure_mutation`: the invalid type `q` and
the parse failure after type `b`, both on the freshly started machine. -/
theorem loadstep_failure_mutation_witness :
    (loadstep (initStateAt 0) ⟨true, 'q', 0, false⟩
      = (false, emit (initStateAt 0) "LOG: Invalid step type"))
  ∧ ((loadstep (initStateAt 0) ⟨true, 'b', 0, false⟩).1 = false
      ∧ (loadstep (initStateAt 0) ⟨true, 'b', 0, false⟩).2.nextStep.type = 'b'
      ∧ (loadstep (initStateAt 0) ⟨true, 'b', 0, false⟩).2.nextStep.length
          = (initStateAt 0).nextStep.length) :=
  ⟨(loadstep_failure_mutation (initStateAt 0) ⟨true, 'q', 0, false⟩ (by decide)).1
      (by decide),
   (loadstep_failure_mutation (initStateAt 0) ⟨true, 'b', 0, false⟩ (by decide)).2
      (by decide) (by decide) (by decide)⟩

/-- A started machine with the TTL-control flag set. -/
def c3State : MachineState := { initStateAt 0 with started := true, TTLControl := true }

/-- A tick carrying the manual command `Z` while TTL input T1 is high. -/
def c3Env : TickEnv := { baseEnv with serial := ['Z'], t1 := true }

/-- C3 counterexample: with TTL control enabled, the manual `Z`
command still opens the SHORT valve during a tick whose combined TTL
input is nonzero: the valve states before and after processing the
command are not identical, so manual writes are not suppressed. -/
theorem ttl_no_suppression_counterexample :
    c3State.TTLControl = true
  ∧ getValve c3State.valves SHORT = false
  ∧ getValve (tickD c3State c3Env).valves SHORT = true := by decide

/-- C3 amended: enabling TTL control does not suppress the other valve
writers: from any TTL-enabled state the manual `Z` command is
dispatched to `setValve` exactly as in manual mode and opens SHORT.
The TTL handler itself, on combined input 0 with `simpleTTL` clear,
does close all 5 valves (and, running after the serial dispatch in the
same tick, can immediately overwrite a manual write). -/
theorem ttl_not_exclusive (st : MachineState) (now : Nat) (load : LoadEnv)
    (readings : Nat → Int) (fuel : Nat)
    (h : st.TTLControl = true) (h2 : st.simpleTTL = false) :
    handleSerial st 'Z' now load readings fuel = some (setValve st SHORT true)
  ∧ getValve (setValve st SHORT true).valves SHORT = true
  ∧ getValve (handleTTL st false false false false false).valves SWITCH = false
  ∧ getValve (handleTTL st false false false false false).valves IN = false
  ∧ getValve (handleTTL st false false false false false).valves OUT = false
  ∧ getValve (handleTTL st false false false false false).valves VENT = false
  ∧ getValve (handleTTL st false false false false false).valves SHORT = false := by
  refine ⟨rfl, ?_, ?_, ?_, ?_, ?_, ?_⟩
  all_goals
    simp [handleTTL, h2, setValve, getValve, setValveState,
      SWITCH, IN, OUT, VENT, SHORT]

/-- Witness for `ttl_not_exclusive` at the concrete TTL-enabled state. -/
theorem ttl_not_exclusive_witness :
    handleSerial c3State 'Z' 0 noLoad (fun _ => 0) 0 = some (setValve c3State SHORT true)
  ∧ getValve (handleTTL c3State false false false false false).valves SHORT = false :=
  ⟨(ttl_not_exclusive c3State 0 noLoad (fun _ => 0) 0 (by decide) (by decide)).1,
   (ttl_not_exclusive c3State 0 noLoad (fun _ => 0) 0 (by decide) (by decide)).2.2.2.2.2.2⟩

/-- C1 counterexample: with every sample stuck at 1000 raw counts
(about 9 bar, far above the threshold), `depressurise` is still inside
its 50 ms polling loop after 200 condition polls — 10000 ms, well past
the claimed 5000 ms timeout plus one 50 ms interval.  The routine has
no timeout at all. -/
theorem depressurise_timeout_counterexample :
    depressurise (initStateAt 0) (fun _ => 1000) 200 = none := by decide

/-- C1 amended: `depressurise` polls every 50 ms with no timeout: if
the converted pressure stays above the threshold on every poll the
routine never leaves its loop, however many polls elapse; only when
some poll drops to the threshold or below does it exit, and then OUT
and SHORT are closed. -/
theorem depressurise_unbounded (st : MachineState) (readings : Nat → Int)
    (fuel : Nat) :
    ((∀ n, pressHigh (readings n) = true) → depressurise st readings fuel = none)
  ∧ (pressHigh (readings 0) = true → ∀ st', depressurise st readings fuel = some st' →
      getValve st'.valves OUT = false ∧ getValve st'.valves SHORT = false) := by
  constructor
  · intro h
    have hloop : ∀ f k, depressLoop readings k f = none := by
      intro f
      induction f with
      | zero => intro k; rfl
      | succ f ih => intro k; simp [depressLoop, h k, ih]
    simp [depressurise, h 0, hloop]
  · intro h0 st' hsome
    rw [depressurise] at hsome
    simp only [h0, if_true] at hsome
    rcases hd : depressLoop readings 1 fuel with _ | k
    · rw [hd] at hsome
      exact absurd hsome (by simp)
    · rw [hd] at hsome
      simp only [Option.some_inj] at hsome
      subst hsome
      constructor
      all_goals
        simp [setValve, getValve, setValveState, SWITCH, IN, OUT, VENT, SHORT]

/-- Witness for `depressurise_unbounded`: pressure stuck high never
exits; pressure dropping on the first loop poll exits with OUT and
SHORT closed. -/
theorem depressurise_unbounded_witness :
    depressurise (initStateAt 0) (fun _ => 1000) 3 = none
  ∧ (getValve ((depressurise (initStateAt 0)
        (fun k => if k = 0 then 1000 else 100) 1).getD (initStateAt 0)).valves OUT
          = false
    ∧ getValve ((depressurise (initStateAt 0)
        (fun k => if k = 0 then 1000 else 100) 1).getD (initStateAt 0)).valves SHORT
          = false) :=
  ⟨(depressurise_unbounded (initStateAt 0) (fun _ => 1000) 3).1 (fun _ => by decide),
   (depressurise_unbounded (initStateAt 0) (fun k => if k = 0 then 1000 else 100) 1).2
      (by decide) _ (by decide)⟩

/-- Frame fact: `reset` does not touch the liveness clock, and always
clears the started flag. -/
theorem reset_heartBeat (st : MachineState) (now : Nat) :
    (reset st now).heartBeat = st.heartBeat := by
  simp [reset, closeValves, setValve, emit]

theorem reset_started (st : MachineState) (now : Nat) :
    (reset st now).started = false := by
  simp [reset, closeValves, setValve, emit]

theorem execStage_heartBeat (st : MachineState) (tNow : Nat) :
    (execStage st tNow).heartBeat = st.heartBeat := by
  unfold execStage
  split
  · exact execBlock_heartBeat _ _
  · rfl

theorem execStage_started (st : MachineState) (tNow : Nat) :
    (execStage st tNow).started = st.started := by
  unfold execStage
  split
  · exact execBlock_started _ _
  · rfl

theorem ttlStage_heartBeat (st : MachineState) (env : TickEnv) :
    (ttlStage st env).heartBeat = st.heartBeat := by
  unfold ttlStage
  split
  · exact handleTTL_heartBeat _ _ _ _ _ _
  · rfl

theorem ttlStage_started (st : MachineState) (env : TickEnv) :
    (ttlStage st env).started = st.started := by
  unfold ttlStage
  split
  · exact handleTTL_started _ _ _ _ _ _
  · rfl

theorem pollStage_heartBeat (st : MachineState) (env : TickEnv) :
    (pollStage st env).heartBeat = st.heartBeat := by
  unfold pollStage
  split
  · exact readPressure_heartBeat _ _ _ _ _
  · rfl

theorem pollStage_started (st : MachineState) (env : TickEnv) :
    (pollStage st env).started = st.started := by
  unfold pollStage
  split
  · exact readPressure_started _ _ _ _ _
  · rfl

/-- When the liveness clock equals the current tick timestamp, the
heartbeat supervisor does nothing. -/
theorem heartStage_skip (st : MachineState) (tNow : Nat)
    (h : st.heartBeat = tNow) : heartStage st tNow = st := by
  unfold heartStage
  rw [h, usubLong_self, if_neg (by decide : ¬ (toLong DEFHeartbeatTime ≤ (0 : Int)))]

/-- Running the started gate over bytes not containing `S` only adds
log lines: no field other than the output changes, and the gate does
not open. -/
theorem waitStart_no_S (now : Nat) :
    ∀ (q : List Char) (st : MachineState), 'S' ∉ q →
      ∃ out, waitStart st now q = ({ st with output := out }, [], false) := by
  intro q
  induction q with
  | nil =>
    intro st _
    exact ⟨st.output, rfl⟩
  | cons c rest ih =>
    intro st h
    have hc : ¬ (c = 'S') := by
      intro hcS
      exact h (by rw [hcS]; exact List.mem_cons_self _ _)
    obtain ⟨out, hout⟩ :=
      ih (emit st ("LOG: Received input: " ++ String.mk [c]))
        (fun hm => h (List.mem_cons_of_mem _ hm))
    refine ⟨out, ?_⟩
    simp only [waitStart, if_neg hc]
    rw [hout]
    rfl

/-- A tick whose serial queue is already drained: the pipeline after
the serial dispatch runs, and when the liveness clock matches the tick
timestamp no reset fires, so the started flag and the clock survive. -/
theorem tickMain_nil (st : MachineState) (env : TickEnv)
    (h : st.heartBeat = env.now) :
    tickMain st env [] = some (pollStage (ttlStage (execStage st env.now) env) env)
  ∧ (pollStage (ttlStage (execStage st env.now) env) env).started = st.started
  ∧ (pollStage (ttlStage (execStage st env.now) env) env).heartBeat = env.now := by
  have hhb : (pollStage (ttlStage (execStage st env.now) env) env).heartBeat
      = env.now := by
    rw [pollStage_heartBeat, ttlStage_heartBeat, execStage_heartBeat, h]
  refine ⟨?_, ?_, hhb⟩
  · show some (heartStage (pollStage (ttlStage (execStage st env.now) env) env)
      env.now) = _
    rw [heartStage_skip _ _ hhb]
  · rw [pollStage_started, ttlStage_started, execStage_started]

/-- A started machine that last heard from the host at time 0. -/
def c4State : MachineState := { initStateAt 0 with started := true }

/-- A quiet tick 6000 ms later, past the 5000 ms heartbeat timeout. -/
def c4Env : TickEnv := { baseEnv with now := 6000 }

/-- C4 counterexample: at the first tick past the deadline the reset
fires, but the liveness clock is not refreshed by it: heartBeat is
still 0 rather than the reset time, contradicting the claimed
mechanism; the loop is instead pushed back into the not-started
gate. -/
theorem reset_no_clock_refresh_counterexample :
    countLine (tickD c4State c4Env).output "System Reset, please reconnect" = 1
  ∧ (tickD c4State c4Env).heartBeat = 0
  ∧ (tickD c4State c4Env).started = false := by decide

/-- C4 amended: a breach-triggered reset happens only once, but not
because the reset refreshes the liveness clock — it leaves `heartBeat`
untouched and instead clears `started`, so every following tick blocks
in the started gate (adding only log output and never resetting again)
until an `S` byte restarts the session and refreshes the clock. -/
theorem liveness_reset_once (st : MachineState) (env : TickEnv) (now : Nat)
    (h : st.started = false) :
    (reset st now).heartBeat = st.heartBeat
  ∧ (reset st now).started = false
  ∧ ('S' ∉ env.serial → ∃ out, tick st env = some { st with output := out })
  ∧ (env.serial = ['S'] →
      ∃ st', tick st env = some st'
        ∧ st'.started = true ∧ st'.heartBeat = env.now) := by
  refine ⟨reset_heartBeat st now, reset_started st now, ?_, ?_⟩
  · intro hS
    obtain ⟨out, hw⟩ := waitStart_no_S env.now env.serial st hS
    exact ⟨out, by simp [tick, h, hw]⟩
  · intro hq
    have htick : tick st env
        = tickMain { emit (emit st ("LOG: Received input: " ++ String.mk ['S']))
            "LOG: System started" with started := true, heartBeat := env.now }
            env [] := by
      simp [tick, h, hq, waitStart]
    obtain ⟨hmain, hstart, hhb⟩ := tickMain_nil
      { emit (emit st ("LOG: Received input: " ++ String.mk ['S']))
          "LOG: System started" with started := true, heartBeat := env.now }
      env rfl
    refine ⟨_, htick.trans hmain, ?_, hhb⟩
    rw [hstart]

/-- Witness for `liveness_reset_once`: the freshly reset machine, one
tick with no `S` pending and one tick receiving `S`. -/
theorem liveness_reset_once_witness :
    (reset (initStateAt 0) 6000).heartBeat = (initStateAt 0).heartBeat
  ∧ (reset (initStateAt 0) 6000).started = false
  ∧ (∃ st', tick (initStateAt 0) { baseEnv with serial := ['S'], now := 42 }
      = some st' ∧ st'.started = true ∧ st'.heartBeat = 42) :=
  ⟨(liveness_reset_once (initStateAt 0)
      { baseEnv with serial := ['S'], now := 42 } 6000 (by decide)).1,
   (liveness_reset_once (initStateAt 0)
      { baseEnv with serial := ['S'], now := 42 } 6000 (by decide)).2.1,
   (liveness_reset_once (initStateAt 0)
      { baseEnv with serial := ['S'], now := 42 } 6000 (by decide)).2.2.2 rfl⟩

/-- C10: every reset path (the explicit `s` command and the heartbeat
breach) ends in the not-started state; a not-started tick consumes its
bytes in the started gate, so a tick without `S` only logs — no
pressure polling, no sequence progress, no TTL handling, no command
dispatch, every other field unchanged — while a tick receiving `S`
opens the gate with the liveness clock refreshed to the tick time
before the main body resumes. -/
theorem startGate_blocks (st : MachineState) (env : TickEnv) (now : Nat)
    (load : LoadEnv) (readings : Nat → Int) (fuel : Nat)
    (h : st.started = false) :
    handleSerial st 's' now load readings fuel = some (reset st now)
  ∧ (reset st now).started = false
  ∧ (toLong DEFHeartbeatTime ≤ usubLong now st.heartBeat →
      (heartStage st now).started = false)
  ∧ ('S' ∉ env.serial → ∃ out, tick st env = some { st with output := out })
  ∧ (env.serial = ['S'] →
      ∃ st', tick st env = some st'
        ∧ st'.started = true ∧ st'.heartBeat = env.now) := by
  refine ⟨rfl, reset_started st now, ?_, ?_, ?_⟩
  · intro hb
    unfold heartStage
    rw [if_pos hb]
    exact reset_started _ _
  · intro hS
    obtain ⟨out, hw⟩ := waitStart_no_S env.now env.serial st hS
    exact ⟨out, by simp [tick, h, hw]⟩
  · intro hq
    have htick : tick st env
        = tickMain { emit (emit st ("LOG: Received input: " ++ String.mk ['S']))
            "LOG: System started" with started := true, heartBeat := env.now }
            env [] := by
      simp [tick, h, hq, waitStart]
    obtain ⟨hmain, hstart, hhb⟩ := tickMain_nil
      { emit (emit st ("LOG: Received input: " ++ String.mk ['S']))
          "LOG: System started" with started := true, heartBeat := env.now }
      env rfl
    refine ⟨_, htick.trans hmain, ?_, hhb⟩
    rw [hstart]

/-- Witness for `startGate_blocks`: the freshly reset machine, a tick
seeing only a stray `q` byte, and a tick receiving `S`. -/
theorem startGate_blocks_witness :
    handleSerial (initStateAt 0) 's' 7 noLoad (fun _ => 0) 0
      = some (reset (initStateAt 0) 7)
  ∧ (toLong DEFHeartbeatTime ≤ usubLong 6000 (initStateAt 0).heartBeat →
      (heartStage (initStateAt 0) 6000).started = false)
  ∧ (∃ out, tick (initStateAt 0) { baseEnv with serial := ['q'], now := 9 }
      = some { initStateAt 0 with output := out }) :=
  ⟨(startGate_blocks (initStateAt 0) { baseEnv with serial := ['q'], now := 9 }
      7 noLoad (fun _ => 0) 0 (by decide)).1,
   (startGate_blocks (initStateAt 0) { baseEnv with serial := ['q'], now := 9 }
      6000 noLoad (fun _ => 0) 0 (by decide)).2.2.1,
   (startGate_blocks (initStateAt 0) { baseEnv with serial := ['q'], now := 9 }
      7 noLoad (fun _ => 0) 0 (by decide)).2.2.2.1 (by decide)⟩

end SpectrometerTN
